import Mathlib

set_option maxRecDepth 40000

/-!
Verification of the data pipeline of the Amazon-Reviews-Management
repository (src/app.py): sentiment filtering, synonym-expansion search,
frequency aggregation, and chunked tabular export.

The pandas DataFrame of reviews is modelled as a list of records; the
external collaborators (the wordnet lexical database and the regular
expression engine behind pandas Series.str.contains) are modelled
explicitly, the former as a function parameter, the latter by a small
regex semantics covering the fragment the code can build: literal
characters, the any-character metacharacter, and top-level alternation.
-/

/-- One review row of the DataFrame: the three CSV columns polarity,
title, text (load_data reads them with names=["polarity", "title", "text"]). -/
structure Record where
  polarity : Int
  title : String
  text : String
deriving DecidableEq, Repr

/-- A DataFrame of reviews: an ordered sequence of rows. -/
abbrev Table := List Record

/-- The data-model invariant of the corpus: every polarity code is
1 (negative) or 2 (positive). -/
def Table.wf (t : Table) : Prop := ∀ r ∈ t, r.polarity = 1 ∨ r.polarity = 2

instance (t : Table) : Decidable (Table.wf t) :=
  inferInstanceAs (Decidable (∀ r ∈ t, r.polarity = 1 ∨ r.polarity = 2))

/-- Failure of filter_data_by_sentiment on an unrecognized label: the
lookup sentiment_mapping[sentiment] raises a key error, the error the
specification names InvalidSentimentError. -/
inductive SentimentError
  | invalidSentiment (label : String)
deriving DecidableEq, Repr

/-- The sentiment_mapping dictionary of filter_data_by_sentiment
(app.py:60): positive maps to 2, negative to 1, anything else is absent. -/
def sentiment_mapping (s : String) : Option Int :=
  if s = "positive" then some 2 else if s = "negative" then some 1 else none

/-- filter_data_by_sentiment (app.py:49-61): keeps the rows whose
polarity equals the mapped code; the dictionary lookup fails on any
other label before any filtering happens. -/
def filter_data_by_sentiment (data : Table) (sentiment : String) :
    Except SentimentError Table :=
  match sentiment_mapping sentiment with
  | some code => Except.ok (data.filter fun r => r.polarity == code)
  | none => Except.error (SentimentError.invalidSentiment sentiment)

/-- An atom of the regex fragment reachable from find_similar_words:
the any-character metacharacter (a dot in the pattern) or a literal
character. -/
inductive RAtom
  | anyChar
  | lit (c : Char)
deriving DecidableEq, Repr

/-- Split a character sequence on the bar character; the empty sequence
yields one empty group, as the engine sees one empty alternative in an
empty pattern. -/
def splitBar : List Char → List (List Char)
  | [] => [[]]
  | c :: cs =>
    if c = '|' then [] :: splitBar cs
    else
      match splitBar cs with
      | [] => [[c]]
      | g :: gs => (c :: g) :: gs

/-- Parse one alternative of the pattern: each dot becomes the
any-character metacharacter, every other character is literal. -/
def parseAlt (s : List Char) : List RAtom :=
  s.map fun c => if c = '.' then RAtom.anyChar else RAtom.lit c

/-- Parse a pattern: top-level alternation on the bar character, as the
regex engine treats the string produced by joining terms with a bar. -/
def parsePattern (p : String) : List (List RAtom) :=
  (splitBar p.data).map parseAlt

/-- Case-insensitive single-character match (the case=False flag of
Series.str.contains sets the ignore-case option of the engine). -/
def atomMatch : RAtom → Char → Bool
  | RAtom.anyChar, _ => true
  | RAtom.lit c, d => c.toLower == d.toLower

/-- Match a sequence of atoms against a prefix of the text. -/
def seqMatchAt : List RAtom → List Char → Bool
  | [], _ => true
  | _ :: _, [] => false
  | a :: rest, c :: cs => atomMatch a c && seqMatchAt rest cs

/-- Search semantics: the alternative matches starting at some position. -/
def searchFrom (ats : List RAtom) : List Char → Bool
  | [] => seqMatchAt ats []
  | c :: cs => seqMatchAt ats (c :: cs) || searchFrom ats cs

/-- pandas Series.str.contains(pat, case=False) on one cell: the pattern
is a regex searched case-insensitively anywhere in the text. -/
def str_contains (pat : String) (text : String) : Bool :=
  (parsePattern pat).any fun alt => searchFrom alt text.data

/-- find_similar_words (app.py:66-81). The wordnet synsets/lemmas lookup
is the external lexical database, passed as the function wn; a truthy
(nonempty) search word is expanded and the table filtered by
Series.str.contains on the bar-joined synonym list, otherwise the data
and the empty synonym list are returned untouched. -/
def find_similar_words (wn : String → List String) (data : Table)
    (search_word : String) : Table × List String :=
  if search_word ≠ "" then
    let synonyms := wn search_word
    (data.filter fun r =>
      str_contains (String.intercalate "|" synonyms) r.text, synonyms)
  else (data, [])

/-- Literal prefix comparison of character sequences. -/
def prefixMatch : List Char → List Char → Bool
  | [], _ => true
  | _ :: _, [] => false
  | a :: as, b :: bs => a == b && prefixMatch as bs

/-- Literal substring comparison: the needle occurs verbatim somewhere. -/
def substrMatch (needle : List Char) : List Char → Bool
  | [] => prefixMatch needle []
  | c :: cs => prefixMatch needle (c :: cs) || substrMatch needle cs

/-- Case-insensitive literal substring containment, from the claim's
words: the term occurs in the body verbatim, no metacharacter semantics. -/
def containsLiteralCI (body term : String) : Bool :=
  substrMatch (term.data.map Char.toLower) (body.data.map Char.toLower)

/-- A word character of the token pattern of generate_word_cloud
(alphanumeric or underscore; the corpus model is ASCII). -/
def isWordChar (c : Char) : Bool := c.isAlphanum || c == '_'

/-- Accumulating scan behind findall_words: collects maximal runs of
word characters, the accumulator holding the current run reversed. -/
def wordRunsAux (acc : List Char) : List Char → List String
  | [] => if acc.isEmpty then [] else [String.mk acc.reverse]
  | c :: cs =>
    if isWordChar c then wordRunsAux (c :: acc) cs
    else if acc.isEmpty then wordRunsAux [] cs
    else String.mk acc.reverse :: wordRunsAux [] cs

/-- re.findall of the one-or-more-word-characters pattern (app.py:96):
the list of maximal runs of word characters, in order of appearance. -/
def findall_words (s : String) : List String := wordRunsAux [] s.data

/-- Increment the count of a word in an association list, appending a
fresh entry when absent, as a Counter keyed by insertion order does. -/
def incrCount (w : String) : List (String × Nat) → List (String × Nat)
  | [] => [(w, 1)]
  | (x, n) :: rest =>
    if x = w then (x, n + 1) :: rest else (x, n) :: incrCount w rest

/-- collections.Counter over a word list: counts in first-seen key order. -/
def counterOf (ws : List String) : List (String × Nat) :=
  ws.foldl (fun acc w => incrCount w acc) []

/-- Count-descending order on counted words. -/
def countGe (a b : String × Nat) : Prop := b.2 ≤ a.2

instance : DecidableRel countGe := fun a b => Nat.decLe b.2 a.2

instance : IsTotal (String × Nat) countGe := ⟨fun a b => Nat.le_total b.2 a.2⟩

instance : IsTrans (String × Nat) countGe :=
  ⟨fun _ _ _ hab hbc => le_trans hbc hab⟩

/-- Counter.most_common(n): the first n pairs of a stable sort by count
descending (ties keep first-seen order, as the library's selection of
the n largest does). -/
def most_common (n : Nat) (wc : List (String × Nat)) : List (String × Nat) :=
  (wc.insertionSort countGe).take n

/-- A value of the Python list generate_word_cloud returns: either a
bare token string or a (token, count) tuple. -/
inductive CloudItem
  | tok (s : String)
  | pair (s : String) (n : Nat)
deriving DecidableEq, Repr

/-- generate_word_cloud (app.py:84-99): joins the text column with a
single space, tokenizes on maximal word-character runs, counts the
tokens, takes the 20 most common, and the final list comprehension keeps
only the word of each (word, count) pair, so the returned list holds
bare token strings. -/
def generate_word_cloud (data : Table) : List CloudItem :=
  let text := String.intercalate " " (data.map fun r => r.text)
  let words := findall_words text
  let word_count := counterOf words
  let common_words := most_common 20 word_count
  common_words.map fun p => CloudItem.tok p.1

/-- Python range(0, stop, step) for a positive step. -/
def pyRange (stop step : Nat) : List Nat :=
  (List.range ((stop + step - 1) / step)).map (· * step)

/-- create_single_excel (app.py:102-129), row content of each written
file: the loop steps through the data by chunk_size = 750000, slices
data.iloc[i : i + chunk_size], truncates the slice to max_rows when it
is longer, and writes one file per slice (file writing itself is I/O and
outside the model). The max_rows parameter defaults to 250000. -/
def create_single_excel (data : Table) (max_rows : Nat := 250000) :
    List Table :=
  (pyRange data.length 750000).map fun i =>
    let chunk_data := (data.drop i).take 750000
    if max_rows < chunk_data.length then chunk_data.take max_rows
    else chunk_data

/-- A concrete positive review row used in concrete instances. -/
def exPos : Record := ⟨2, "good", "great product"⟩

/-- A concrete negative review row used in concrete instances. -/
def exNeg : Record := ⟨1, "bad", "terrible"⟩

/-- The two-row table of the Frequency Summarizer example. -/
def wcExample : Table := [⟨2, "", "cat dog cat"⟩, ⟨1, "", "dog bird"⟩]

/-- A row whose body contains the letters of a dotted term without the
dot: it matches the term only under metacharacter semantics. -/
def c2Row : Record := ⟨2, "t", "axc"⟩

/-- A plain row replicated to build large tables. -/
def c1Row : Record := ⟨2, "t", "b"⟩

/-- An empty alternative matches at any position. -/
theorem searchFrom_nil (cs : List Char) : searchFrom [] cs = true := by
  cases cs <;> simp [searchFrom, seqMatchAt]

/-- The empty pattern (a bar-join of no terms) matches every text. -/
theorem str_contains_empty_pat (s : String) : str_contains "" s = true := by
  have h : parsePattern "" = [[]] := rfl
  simp [str_contains, h, searchFrom_nil]

/-- With no synonyms the filtering step of find_similar_words keeps
every row: the joined pattern is empty and matches every body. -/
theorem find_similar_words_no_syns (wn : String → List String) (t : Table)
    (w : String) (hwn : wn w = []) : (find_similar_words wn t w).1 = t := by
  by_cases hw : w = ""
  · simp [find_similar_words, hw]
  · have h1 : (find_similar_words wn t w).1 =
        t.filter fun r => str_contains (String.intercalate "|" (wn w)) r.text := by
      simp [find_similar_words, hw]
    have h2 : String.intercalate "|" ([] : List String) = "" := rfl
    rw [h1, hwn]
    simp only [h2]
    exact List.filter_eq_self.mpr fun r _ => str_contains_empty_pat r.text

/-- On a table whose polarity codes are all 1 or 2, the rows with
code 2 and the rows with code 1 together count every row once. -/
theorem length_filter_polarity (t : Table) (h : Table.wf t) :
    (t.filter fun r => r.polarity == 2).length +
      (t.filter fun r => r.polarity == 1).length = t.length := by
  induction t with
  | nil => simp
  | cons r rest ih =>
    have hr : r.polarity = 1 ∨ r.polarity = 2 := h r (by simp)
    have hrest : Table.wf rest := fun x hx => h x (List.mem_cons_of_mem _ hx)
    have e := ih hrest
    rcases hr with h1 | h1 <;> simp [List.filter_cons, h1] <;> omega

/-- C1: the claim states that create_single_excel splits every table
into chunks of at most max_rows that concatenate back to the input, a
300-row table with max_rows = 100 giving 3 chunks of 100. The code
instead steps by the unrelated chunk_size 750000 and truncates the
single resulting slice to max_rows: evaluated at 300 identical rows with
max_rows = 100 it returns one chunk of 100 rows, dropping 200 rows. -/
theorem c1_truncation_eval :
    create_single_excel (List.replicate 300 c1Row) 100 =
      [List.replicate 100 c1Row] := by
  decide

/-- C2: the claim states that find_similar_words treats each synonym as
a literal substring and a row matches exactly when its body contains a
term literally. The code joins the terms into a regex for
Series.str.contains, so the dot in the term is the any-character
metacharacter: the body axc matches the term a.c although a.c is not a
literal substring of axc. -/
theorem c2_metachar_eval :
    (find_similar_words (fun _ => ["a.c"]) [c2Row] "word").1 = [c2Row] ∧
    containsLiteralCI "axc" "a.c" = false := by
  decide

/-- C3 counterexample: generate_word_cloud does not return (token,
count) pairs; on the two-row example its value differs from the list of
pairs the claim promises, because the final list comprehension keeps
only the words. -/
theorem c3_pairs_counterexample :
    generate_word_cloud wcExample ≠
      [CloudItem.pair "cat" 2, CloudItem.pair "dog" 2,
        CloudItem.pair "bird" 1] := by
  decide

/-- C3 amended: generate_word_cloud returns at most 20 bare tokens, the
first components of the top-20 (token, count) pairs obtained by joining
the bodies with a space, tokenizing on word-character runs, counting
case-sensitively and sorting by count descending with first-seen
tie-break; on the example table it returns the tokens cat, dog, bird in
that order. -/
theorem c3_word_cloud_amended :
    (∀ t : Table,
        (generate_word_cloud t).length ≤ 20 ∧
        List.Pairwise countGe
          (most_common 20 (counterOf (findall_words
            (String.intercalate " " (t.map fun r => r.text)))))) ∧
    generate_word_cloud wcExample =
      [CloudItem.tok "cat", CloudItem.tok "dog", CloudItem.tok "bird"] := by
  refine ⟨fun t => ⟨?_, ?_⟩, by decide⟩
  · simp [generate_word_cloud, most_common, List.length_take]
  · exact List.Pairwise.sublist (List.take_sublist 20 _)
      (List.sorted_insertionSort countGe _)

/-- C4: filter_data_by_sentiment fails with the invalid-sentiment error
exactly when the label is neither positive nor negative, and returns
normally exactly on those two labels. -/
theorem c4_invalid_sentiment_iff :
    ∀ (t : Table) (s : String),
      (filter_data_by_sentiment t s =
          Except.error (SentimentError.invalidSentiment s) ↔
        ¬(s = "positive" ∨ s = "negative")) ∧
      ((∃ out, filter_data_by_sentiment t s = Except.ok out) ↔
        (s = "positive" ∨ s = "negative")) := by
  intro t s
  by_cases h1 : s = "positive"
  · subst h1
    constructor <;> simp [filter_data_by_sentiment, sentiment_mapping]
  · by_cases h2 : s = "negative"
    · subst h2
      constructor <;> simp [filter_data_by_sentiment, sentiment_mapping]
    · constructor <;>
        simp [filter_data_by_sentiment, sentiment_mapping, h1, h2]

/-- C5: on a table satisfying the corpus invariant (every polarity code
is 1 or 2), the positive and the negative filter results share no row
and their lengths sum to the length of the input. -/
theorem c5_partition :
    ∀ t : Table, Table.wf t →
      ∀ pos neg : Table,
        filter_data_by_sentiment t "positive" = Except.ok pos →
        filter_data_by_sentiment t "negative" = Except.ok neg →
        (∀ r ∈ pos, r ∉ neg) ∧ pos.length + neg.length = t.length := by
  intro t hwf pos neg hp hn
  simp [filter_data_by_sentiment, sentiment_mapping] at hp hn
  subst hp
  subst hn
  refine ⟨?_, length_filter_polarity t hwf⟩
  intro r hrp hrn
  have h2 := (List.mem_filter.mp hrp).2
  have h1 := (List.mem_filter.mp hrn).2
  simp at h1 h2
  omega

/-- C5 witness: the two-row example table partitions into its positive
row and its negative row. -/
theorem c5_partition_witness :
    (∀ r ∈ ([exPos] : Table), r ∉ ([exNeg] : Table)) ∧
      ([exPos] : Table).length + ([exNeg] : Table).length =
        ([exPos, exNeg] : Table).length :=
  c5_partition [exPos, exNeg] (by decide) [exPos] [exNeg] rfl rfl

/-- C6: with an empty synonym set (the lexical lookup returns no
synonyms, whatever the query word), find_similar_words returns the
input table unchanged; consequently searching a sentiment-filtered
table with an empty synonym set returns that filtered table. -/
theorem c6_empty_synonyms :
    (∀ (wn : String → List String) (t : Table) (w : String),
        wn w = [] → (find_similar_words wn t w).1 = t) ∧
    (∀ (wn : String → List String) (t : Table) (s w : String) (out : Table),
        wn w = [] → filter_data_by_sentiment t s = Except.ok out →
        (find_similar_words wn out w).1 = out) := by
  refine ⟨fun wn t w hwn => find_similar_words_no_syns wn t w hwn, ?_⟩
  intro wn t s w out hwn _
  exact find_similar_words_no_syns wn out w hwn

/-- C6 witness: searching the positive rows of the example table with a
synonymless query leaves them unchanged. -/
theorem c6_empty_synonyms_witness :
    (find_similar_words (fun _ => []) ([exPos] : Table) "zzz").1 = [exPos] :=
  c6_empty_synonyms.2 (fun _ => []) [exPos, exNeg] "positive" "zzz" [exPos]
    rfl rfl

/-- C7: filtering an already sentiment-filtered table again by the same
label succeeds and returns the same table. -/
theorem c7_idempotent :
    ∀ (t : Table) (s : String) (out : Table),
      filter_data_by_sentiment t s = Except.ok out →
      filter_data_by_sentiment out s = Except.ok out := by
  intro t s out h
  unfold filter_data_by_sentiment at h ⊢
  cases hm : sentiment_mapping s with
  | none => rw [hm] at h; exact absurd h (by simp)
  | some code =>
    rw [hm] at h
    simp at h ⊢
    subst h
    exact fun r hr => by simpa using (List.mem_filter.mp hr).2

/-- C7 witness: filtering the positive rows of the example table by
positive again returns them unchanged. -/
theorem c7_idempotent_witness :
    filter_data_by_sentiment ([exPos] : Table) "positive" =
      Except.ok [exPos] :=
  c7_idempotent [exPos, exNeg] "positive" [exPos] rfl

/-- C8: every table derived by the sentiment filter or by the search
step is a sublist of its input: each derived row exists in the input
with all three fields unmodified and the rows keep their original
relative order. -/
theorem c8_projection :
    (∀ (t : Table) (s : String) (out : Table),
        filter_data_by_sentiment t s = Except.ok out →
        List.Sublist out t) ∧
    (∀ (wn : String → List String) (t : Table) (w : String),
        List.Sublist (find_similar_words wn t w).1 t) := by
  constructor
  · intro t s out h
    unfold filter_data_by_sentiment at h
    cases hm : sentiment_mapping s with
    | none => rw [hm] at h; exact absurd h (by simp)
    | some code =>
      rw [hm] at h
      simp at h
      subst h
      exact List.filter_sublist t
  · intro wn t w
    by_cases hw : w = ""
    · simp [find_similar_words, hw]
    · simp only [find_similar_words, if_pos hw]
      exact List.filter_sublist t

/-- C8 witness: the positive rows of the example table form a sublist
of the example table. -/
theorem c8_projection_witness :
    List.Sublist ([exPos] : Table) [exPos, exNeg] :=
  c8_projection.1 [exPos, exNeg] "positive" [exPos] rfl

/-- C9: with an empty query word, find_similar_words returns the table
untouched and the empty synonym list, whatever lexical database is
supplied (so no lookup can influence the result). -/
theorem c9_empty_query :
    ∀ (wn : String → List String) (t : Table),
      find_similar_words wn t "" = (t, []) := by
  intro wn t
  simp [find_similar_words]

/-- C10: with the default max_rows of 250000, a nonempty table of at
most 250000 rows is exported as exactly one chunk holding the whole
table in order, and the empty table is exported as no chunks. -/
theorem c10_default_single_chunk :
    (∀ t : Table, 0 < t.length → t.length ≤ 250000 →
        create_single_excel t = [t]) ∧
    create_single_excel ([] : Table) = [] := by
  constructor
  · intro t h1 h2
    have hr : (t.length + 749999) / 750000 = 1 := by omega
    have ht : t.take 750000 = t := List.take_of_length_le (by omega)
    have hlt : ¬ 250000 < t.length := by omega
    have h0 : List.range 1 = [0] := rfl
    simp [create_single_excel, pyRange, hr, h0, ht, hlt]
  · rfl

/-- C10 witness: a one-row table exports as a single one-row chunk under
the default cap. -/
theorem c10_default_single_chunk_witness :
    create_single_excel ([exPos] : Table) = [[exPos]] :=
  c10_default_single_chunk.1 [exPos] (by decide) (by decide)
